import Mathlib

/-
Verification of the where-was-i core pipeline (src/where_was_i/lib.py) against its
specification.  The pandas DataFrame is modelled as a list of row records; each
library function is translated into a Lean function over those rows.  Timestamps are
epoch milliseconds (Int); dates, daytimes and weekdays are the strings the code
carries; coordinates and distances are real numbers.  A pandas exception is modelled
as an Option returning none.
-/

namespace WhereWasI

/-! ## String and calendar utilities

The Python code compares date and daytime strings lexicographically (pandas
`between`, `isin`) and expands date ranges with `pd.date_range`.  The helpers below
implement decimal-digit parsing, zero-padded formatting and the standard civil
calendar arithmetic (Gregorian, days counted from 0000-03-01) so that those string
operations are executable in Lean. -/

/-- Lexicographic strict comparison of char lists by code point, as Python compares
strings. -/
def lexLtChars : List Char → List Char → Bool
  | [], [] => false
  | [], _ :: _ => true
  | _ :: _, [] => false
  | a :: as, b :: bs =>
    if a.toNat < b.toNat then true
    else if a.toNat = b.toNat then lexLtChars as bs
    else false

/-- Lexicographic non-strict string comparison (Python `<=` on str). -/
def lexLe (s t : String) : Bool := lexLtChars s.data t.data || (s == t)

/-- Parses a maximal all-digit char list into a number, accumulator form. -/
def parseDigitsGo : List Char → Nat → Option Nat
  | [], acc => some acc
  | c :: cs, acc =>
    if 48 ≤ c.toNat ∧ c.toNat ≤ 57 then parseDigitsGo cs (acc * 10 + (c.toNat - 48))
    else none

/-- Parses a non-empty all-digit char list into a number. -/
def parseDigits : List Char → Option Nat
  | [] => none
  | c :: cs => parseDigitsGo (c :: cs) 0

/-- Splits a char list on the dash character. -/
def splitDash : List Char → List (List Char)
  | [] => [[]]
  | c :: cs =>
    let r := splitDash cs
    if c = '-' then [] :: r
    else
      match r with
      | [] => [[c]]
      | x :: xs => (c :: x) :: xs

/-- Gregorian leap-year test. -/
def isLeap (y : Nat) : Bool := y % 4 = 0 && (y % 100 ≠ 0 || y % 400 = 0)

/-- Number of days in a month of the Gregorian calendar. -/
def daysInMonth (y m : Nat) : Nat :=
  match m with
  | 1 => 31
  | 2 => if isLeap y then 29 else 28
  | 3 => 31
  | 4 => 30
  | 5 => 31
  | 6 => 30
  | 7 => 31
  | 8 => 31
  | 9 => 30
  | 10 => 31
  | 11 => 30
  | 12 => 31
  | _ => 0

/-- Day number of a civil date, counting from 0000-03-01 (standard civil-calendar
algorithm, restricted to years from 1 so plain Nat arithmetic suffices). -/
def daysFromCivil (y m d : Nat) : Nat :=
  let y' := if m ≤ 2 then y - 1 else y
  let era := y' / 400
  let yoe := y' % 400
  let mp := if 2 < m then m - 3 else m + 9
  let doy := (153 * mp + 2) / 5 + d - 1
  let doe := yoe * 365 + yoe / 4 - yoe / 100 + doy
  era * 146097 + doe

/-- Civil date (year, month, day) of a day number, inverse of daysFromCivil. -/
def civilFromDays (u : Nat) : Nat × Nat × Nat :=
  let era := u / 146097
  let doe := u % 146097
  let yoe := (doe - doe / 1460 + doe / 36524 - doe / 146096) / 365
  let y := yoe + era * 400
  let doy := doe - (365 * yoe + yoe / 4 - yoe / 100)
  let mp := (5 * doy + 2) / 153
  let d := doy - (153 * mp + 2) / 5 + 1
  let m := if mp < 10 then mp + 3 else mp - 9
  (if m ≤ 2 then y + 1 else y, m, d)

/-- Parses a YYYY-MM-DD string into (year, month, day); none models pandas raising
on a malformed date. -/
def parseDate (s : String) : Option (Nat × Nat × Nat) :=
  match (splitDash s.data).map parseDigits with
  | [some y, some m, some d] =>
    if 1 ≤ y ∧ 1 ≤ m ∧ m ≤ 12 ∧ 1 ≤ d ∧ d ≤ daysInMonth y m then some (y, m, d) else none
  | _ => none

/-- Day number of a YYYY-MM-DD string. -/
def dateToNum (s : String) : Option Nat :=
  (parseDate s).map (fun t => daysFromCivil t.1 t.2.1 t.2.2)

/-- Decimal digit character of n mod 10. -/
def digitChar (n : Nat) : Char := Char.ofNat (48 + n % 10)

/-- Two-digit zero-padded decimal chars (strftime %m / %d). -/
def pad2 (n : Nat) : List Char := [digitChar (n / 10), digitChar n]

/-- Four-digit zero-padded decimal chars (strftime %Y). -/
def pad4 (n : Nat) : List Char :=
  [digitChar (n / 1000), digitChar (n / 100), digitChar (n / 10), digitChar n]

/-- Formats a day number as a YYYY-MM-DD string (strftime "%Y-%m-%d"). -/
def formatCivil (u : Nat) : String :=
  let c := civilFromDays u
  String.mk (pad4 c.1 ++ '-' :: (pad2 c.2.1 ++ '-' :: pad2 c.2.2))

/-! ## VacationExpander: vacation_days (lib.py lines 105-142) -/

/-- A vacation configuration entry: either a plain "YYYY-MM-DD" date, or a
from/to dictionary whose `to` key may be missing. -/
inductive VacEntry where
  | date (d : String)
  | fromTo (start : String) (stop : Option String)

/-- A named circular area from the configuration (cfg["areas"] items). -/
structure Area where
  tag : String
  lat : ℝ
  lng : ℝ
  radius : ℝ

/-- The configuration dictionary handed to the core (vacation, worktimes, workdays,
areas; the bank-holiday region only feeds the external holiday provider and is
represented by the provider's output where needed). -/
structure Cfg where
  vacation : List VacEntry
  worktimes : String × String
  workdays : List Nat
  areas : List Area

/-- pd.date_range(start=s, end=e) rendered as "%Y-%m-%d" strings: the inclusive
daily range, empty when e precedes s; none models pandas raising on a malformed
date. -/
def date_range (s e : String) : Option (List String) :=
  match dateToNum s, dateToNum e with
  | some a, some b =>
    some (if b < a then [] else (List.range (b - a + 1)).map (fun i => formatCivil (a + i)))
  | _, _ => none

/-- Loop of vacation_days: start/end are taken from the entry ("from"/"to" keys,
a missing "to" meaning end = start; a plain date meaning start = end = the date)
and each expanded range is appended to the accumulator. -/
def vacationGo : List VacEntry → List String → Option (List String)
  | [], acc => some acc
  | v :: vs, acc =>
    let se : String × String :=
      match v with
      | .fromTo f t => (f, t.getD f)
      | .date s => (s, s)
    match date_range se.1 se.2 with
    | some l => vacationGo vs (acc ++ l)
    | none => none

/-- vacation_days(cfg): expands the vacation configuration into the concatenated
list of "YYYY-MM-DD" strings. -/
def vacation_days (cfg : Cfg) : Option (List String) :=
  vacationGo cfg.vacation []

/-! ## TimeNormalizer: filter_year (lib.py lines 13-38)

The timestamp is parsed as epoch milliseconds, interpreted as a UTC instant,
converted to Europe/Berlin and filtered on the local calendar year.  The
Europe/Berlin rule of the tz database is +01:00 (CET), switching to +02:00 (CEST)
between 01:00 UTC on the last Sunday of March and 01:00 UTC on the last Sunday of
October. -/

/-- A raw input point record (timestampMs may be a numeric string). -/
structure RawRow where
  timestampMs : String
  latitudeE7 : Int
  longitudeE7 : Int
  accuracy : Int
deriving DecidableEq

/-- A point record after filter_year: the raw fields plus the parsed `time`
column, held as epoch milliseconds of the instant. -/
structure TimeRow where
  timestampMs : String
  latitudeE7 : Int
  longitudeE7 : Int
  accuracy : Int
  time : Int
deriving DecidableEq

/-- Parses an optional-minus-sign decimal char list into an integer. -/
def parseIntChars : List Char → Option Int
  | '-' :: cs => (parseDigits cs).map (fun n => -(n : Int))
  | cs => (parseDigits cs).map (fun n => (n : Int))

/-- pd.to_numeric on a timestamp string; none models pandas raising on a
non-numeric value (the MalformedTimestamp error of the spec). -/
def to_numeric (s : String) : Option Int := parseIntChars s.data

/-- Whole days between an epoch-millisecond instant and 1970-01-01, floored. -/
def epochDays (ms : Int) : Int := Int.fdiv ms 86400000

/-- Civil date of a UTC instant (day numbers shifted by 719468, the day number of
1970-01-01). -/
def civilOfMs (ms : Int) : Nat × Nat × Nat :=
  civilFromDays ((epochDays ms + 719468).toNat)

/-- UTC calendar year of an epoch-millisecond instant. -/
def utcYear (ms : Int) : Nat := (civilOfMs ms).1

/-- Weekday of a day number, 0 = Sunday (strftime "%w" convention; 1970-01-01,
day number 719468, was a Thursday). -/
def weekdayOf (u : Nat) : Nat := (u + 3) % 7

/-- Day of month of the last Sunday of a month. -/
def lastSundayDay (y m : Nat) : Nat :=
  let dim := daysInMonth y m
  dim - weekdayOf (daysFromCivil y m dim)

/-- Epoch milliseconds of midnight UTC of a day number. -/
def msOfDay (u : Nat) : Int := ((u : Int) - 719468) * 86400000

/-- UTC offset of Europe/Berlin at a UTC instant, in milliseconds: +2h during EU
daylight-saving time, +1h otherwise. -/
def berlinOffsetMs (ms : Int) : Int :=
  let y := utcYear ms
  let dstStart := msOfDay (daysFromCivil y 3 (lastSundayDay y 3)) + 3600000
  let dstEnd := msOfDay (daysFromCivil y 10 (lastSundayDay y 10)) + 3600000
  if dstStart ≤ ms ∧ ms < dstEnd then 7200000 else 3600000

/-- Local calendar year of a UTC instant in Europe/Berlin (dt.year after
tz_convert). -/
def berlinYear (ms : Int) : Nat := (civilOfMs (ms + berlinOffsetMs ms)).1

/-- filter_year(df, year): parses every timestampMs with to_numeric (none models
the parse raising), stores the instant in the `time` column, and keeps the rows
whose Europe/Berlin calendar year equals the requested year. -/
def filter_year (df : List RawRow) (year : Int) : Option (List TimeRow) :=
  (df.mapM (fun r =>
    (to_numeric r.timestampMs).map (fun ms =>
      (⟨r.timestampMs, r.latitudeE7, r.longitudeE7, r.accuracy, ms⟩ : TimeRow)))).map
    (fun rows => rows.filter (fun t => decide ((berlinYear t.time : Int) = year)))

/-! ## FilterMaskPipeline (lib.py lines 144-275)

A mask is a boolean Series aligned with the point rows; since every mask is
computed pointwise, it is modelled as a predicate on the enriched point row.  The
row carries the columns clean_lhdf derives: date "YYYY-MM-DD", weekday "%w"
(0 = Sunday), daytime "HH:MM", plus decimal-degree coordinates. -/

/-- A point row after clean_lhdf, the shape the masks and assign_areas consume. -/
structure PRow where
  time : Int
  date : String
  weekday : String
  daytime : String
  lat : ℝ
  lng : ℝ

/-- vacation_mask(df, cfg) pointwise: the row is kept when its date is not a
member of the expanded vacation list; none propagates a vacation_days failure. -/
def vacation_mask (cfg : Cfg) : Option (PRow → Bool) :=
  (vacation_days cfg).map (fun vacation => fun p => !(vacation.contains p.date))

/-- worktime_mask(df, cfg) pointwise: pandas Series.between on the daytime string,
both boundaries inclusive, lexicographic string comparison. -/
def worktime_mask (cfg : Cfg) (p : PRow) : Bool :=
  lexLe cfg.worktimes.1 p.daytime && lexLe p.daytime cfg.worktimes.2

/-- workdays_mask(df, cfg) pointwise: the weekday string (always a digit produced
by strftime "%w") cast to int and tested for membership in cfg["workdays"]. -/
def workdays_mask (cfg : Cfg) (p : PRow) : Bool :=
  match parseDigits p.weekday.data with
  | some w => cfg.workdays.contains w
  | none => false

/-- bank_holiday_mask pointwise: the row is kept when its date is not one of the
holiday dates.  The holiday set itself comes from the external `holidays` package
(an opaque collaborator per the spec), so it is passed in as the list of
"YYYY-MM-DD" strings that provider returned. -/
def bank_holiday_mask (holidayDates : List String) (p : PRow) : Bool :=
  !(holidayDates.contains p.date)

/-- apply_masks(df, masks): functools.reduce of elementwise & over the masks, then
boolean row selection.  reduce over an empty mask list raises in Python, modelled
as none. -/
def apply_masks (df : List PRow) (masks : List (PRow → Bool)) : Option (List PRow) :=
  match masks with
  | [] => none
  | m :: ms =>
    some (df.filter (fun p => ms.foldl (fun acc mk => acc && mk p) (m p)))

/-! ## HaversineDistance: haversine (lib.py lines 360-392) -/

/-- np.radians: degrees to radians. -/
noncomputable def radians (x : ℝ) : ℝ := x * Real.pi / 180

/-- The haversine intermediate `a` of lib.py line 389, on already-converted
angles. -/
noncomputable def hav (lat1 lon1 lat2 lon2 : ℝ) : ℝ :=
  Real.sin ((lat2 - lat1) / 2) ^ 2 +
    Real.cos lat1 * Real.cos lat2 * Real.sin ((lon2 - lon1) / 2) ^ 2

/-- haversine(lat1, lon1, lat2, lon2, to_radians=True, earth_radius=6371):
great-circle distance in meters between two decimal-degree coordinates. -/
noncomputable def haversine (lat1 lon1 lat2 lon2 : ℝ)
    (to_radians : Bool := true) (earth_radius : ℝ := 6371) : ℝ :=
  let a :=
    if to_radians then hav (radians lat1) (radians lon1) (radians lat2) (radians lon2)
    else hav lat1 lon1 lat2 lon2
  earth_radius * 2 * Real.arcsin (Real.sqrt a) * 1000

/-! ## AreaAssigner: assign_areas (lib.py lines 277-323)

The loop walks the configured areas in order.  For each area, only rows not yet in
an area (`mask = df.in_area == False`) get a fresh `distTuple` holding the
haversine distance to this area's center paired with the area's tag when the
distance is strictly below the radius (else None); then the `dist`, `area` and
`in_area` columns are recomputed for all rows from their distTuple.  The three
derived columns (and distTuple) are only ever created inside the loop body, so
with an empty area list the returned frame has just the `in_area` column; the
`hasAreaCols` flag records that fact. -/

/-- A point row after assign_areas: the point columns plus the distTuple, dist,
area and in_area columns the loop writes. -/
structure ARow where
  time : Int
  date : String
  weekday : String
  daytime : String
  lat : ℝ
  lng : ℝ
  distTuple : Option (ℝ × Option String)
  dist : Option ℝ
  area : Option String
  in_area : Bool

/-- Row state before the area loop: `df.loc[:, "in_area"] = False`, no other
derived column yet. -/
def initARow (p : PRow) : ARow :=
  { time := p.time, date := p.date, weekday := p.weekday, daytime := p.daytime,
    lat := p.lat, lng := p.lng,
    distTuple := none, dist := none, area := none, in_area := false }

/-- Second component of a distTuple, as the `area` column recomputation reads it
(None when the tuple is absent, which only happens before the first pass). -/
def tupArea : Option (ℝ × Option String) → Option String
  | some t => t.2
  | none => none

/-- One area pass applied to one row: an unassigned row gets a fresh distTuple for
this area, then dist / area / in_area are recomputed from the (possibly old)
distTuple exactly as the loop body does for every row. -/
noncomputable def areaStep (a : Area) (r : ARow) : ARow :=
  let r' :=
    if r.in_area = false then
      let d := haversine r.lat r.lng a.lat a.lng
      { r with distTuple := some (d, if d < a.radius then some a.tag else none) }
    else r
  { r' with
    dist := r'.distTuple.map Prod.fst,
    area := tupArea r'.distTuple,
    in_area := (tupArea r'.distTuple).isSome }

/-- The frame assign_areas returns: its rows, and whether the distTuple / dist /
area columns exist (they are created only inside the per-area loop body). -/
structure AssignedDF where
  rows : List ARow
  hasAreaCols : Bool

/-- assign_areas(df, cfg): the sequential outer loop over cfg["areas"], each pass
mapping areaStep over the rows. -/
noncomputable def assign_areas (df : List PRow) (cfg : Cfg) : AssignedDF :=
  { rows := cfg.areas.foldl (fun rs a => rs.map (areaStep a)) (df.map initARow),
    hasAreaCols := !cfg.areas.isEmpty }

/-- The whole area loop collapsed onto a single row (the passes act on each row
independently). -/
noncomputable def rowAssign (areas : List Area) (r : ARow) : ARow :=
  areas.foldl (fun r a => areaStep a r) r

/-! ## VisitSegmenter: visit_no (lib.py lines 326-358)

visit_no keeps the in-area rows, compares each row with a lagged (shift) copy of
the frame and adds up three 0/1 transition indicators, whose running cumulative
sum is the visitNo column.  Comparing a value against the NaN that shift puts in
front of the first row follows pandas semantics: `==` is False and `!=` is True.
The default timedelta "3h" is 10800000 milliseconds. -/

/-- Pandas equality on a nullable string column: any comparison with NaN/None is
False. -/
def pandasEqA : Option String → Option String → Bool
  | some x, some y => x == y
  | _, _ => false

/-- The `area` value of the shifted predecessor row (NaN before the first row). -/
def prevArea : Option ARow → Option String
  | none => none
  | some p => p.area

/-- area_change: `(df.area != df.area.shift()).astype(int)`. -/
def area_change (prev : Option ARow) (cur : ARow) : Int :=
  if !pandasEqA cur.area (prevArea prev) then 1 else 0

/-- revisit_same_area: time gap strictly above the threshold AND same area AND
same date as the shifted predecessor (all False against the leading NaN/NaT). -/
def revisit_same_area (timedelta : Int) (prev : Option ARow) (cur : ARow) : Int :=
  match prev with
  | none => 0
  | some p =>
    if (timedelta < cur.time - p.time) && pandasEqA cur.area p.area
        && (cur.date == p.date) then 1 else 0

/-- date_change_in_same_area: `(df.date != df.date.shift()) & (df.area == df.area)`
— note the second conjunct compares the area column with itself, not with its
shifted copy, so it is True on every non-null area. -/
def date_change_in_same_area (prev : Option ARow) (cur : ARow) : Int :=
  let dateNe : Bool :=
    match prev with
    | none => true
    | some p => !(cur.date == p.date)
  if dateNe && pandasEqA cur.area cur.area then 1 else 0

/-- Per-row sum of the three transition indicators. -/
def indicatorSum (timedelta : Int) (prev : Option ARow) (cur : ARow) : Int :=
  area_change prev cur + revisit_same_area timedelta prev cur
    + date_change_in_same_area prev cur

/-- The cumulative sum scan producing visitNo: carries the predecessor row and the
running sum, emitting each row paired with its visitNo. -/
def visitGo (timedelta : Int) : Option ARow → Int → List ARow → List (ARow × Int)
  | _, _, [] => []
  | prev, acc, r :: rs =>
    let acc' := acc + indicatorSum timedelta prev r
    (r, acc') :: visitGo timedelta (some r) acc' rs

/-- State of the visitNo scan (predecessor, running sum) after a list of rows. -/
def visitState (timedelta : Int) (st : Option ARow × Int) (rows : List ARow) :
    Option ARow × Int :=
  rows.foldl (fun s r => (some r, s.2 + indicatorSum timedelta s.1 r)) st

/-- visit_no(df, timedelta="3h"): keeps the in-area rows and pairs each with its
visitNo.  Reading the `area` / `date` / `time` columns of a frame whose area
columns were never created (empty area configuration) raises AttributeError in
pandas, modelled as none. -/
def visit_no (df : AssignedDF) (timedelta : Int := 10800000) :
    Option (List (ARow × Int)) :=
  if df.hasAreaCols then
    some (visitGo timedelta none 0 (df.rows.filter (fun r => r.in_area)))
  else none

/-! ## Concrete test fixtures

Concrete rows and configurations used to instantiate the theorems below on the
scenarios the spec describes. -/

/-- An in-area row in area "Office" at a given instant, as assign_areas would tag
it on 2023-05-02 (a Tuesday). -/
def officeRow (t : Int) (dt : String) : ARow :=
  { time := t, date := "2023-05-02", weekday := "2", daytime := dt,
    lat := 0, lng := 0, distTuple := none, dist := none,
    area := some "Office", in_area := true }

/-- Four points within worktime on one date, all in area "Office", 15 minutes
apart (every gap far below the 3h threshold): the end-to-end scenario of the
spec. -/
def officeRows : List ARow :=
  [officeRow 0 "09:00", officeRow 900000 "09:15",
   officeRow 1800000 "09:30", officeRow 2700000 "09:45"]

/-- An in-area row in area "Home" on 2023-06-01 at a given instant. -/
def homeRow (t : Int) : ARow :=
  { time := t, date := "2023-06-01", weekday := "4", daytime := "08:00",
    lat := 0, lng := 0, distTuple := none, dist := none,
    area := some "Home", in_area := true }

/-- A cleaned point row at the origin. -/
def originRow : PRow :=
  { time := 0, date := "2023-05-02", weekday := "2", daytime := "10:00",
    lat := 0, lng := 0 }

/-- A configuration with no areas at all. -/
def cfgNoAreas : Cfg :=
  { vacation := [], worktimes := ("09:00", "18:00"), workdays := [1, 2, 3, 4, 5],
    areas := [] }

/-- A configuration whose single vacation entry has `to` before `from`. -/
def cfgReversedVacation : Cfg :=
  { cfgNoAreas with vacation := [.fromTo "2023-01-03" (some "2023-01-01")] }

/-- A second reversed vacation range on different dates. -/
def cfgReversedVacation2 : Cfg :=
  { cfgNoAreas with vacation := [.fromTo "2024-05-10" (some "2024-05-01")] }

/-- A point at (52, 13). -/
def berlinishRow : PRow :=
  { time := 0, date := "2023-05-02", weekday := "2", daytime := "10:00",
    lat := 52, lng := 13 }

/-- A far-away area that matches nothing near (52, 13). -/
def areaZ : Area := { tag := "Z", lat := 40, lng := 10, radius := 0 }

/-- Area "A", centered on (52, 13), radius 500. -/
def areaA : Area := { tag := "A", lat := 52, lng := 13, radius := 500 }

/-- Area "B", also centered on (52, 13), radius 1000: a later overlapping area. -/
def areaB : Area := { tag := "B", lat := 52, lng := 13, radius := 1000 }

/-- Configuration listing areas in the order [Z, A, B]. -/
def cfgZAB : Cfg := { cfgNoAreas with areas := [areaZ, areaA, areaB] }

/-- Two zero-radius areas: no point can match either. -/
def areaN1 : Area := { tag := "N1", lat := 1, lng := 1, radius := 0 }

/-- Second zero-radius area, the last one of the configuration. -/
def areaN2 : Area := { tag := "N2", lat := 2, lng := 2, radius := 0 }

/-- Configuration whose two areas match no point. -/
def cfgNoMatch : Cfg := { cfgNoAreas with areas := [areaN1, areaN2] }

/-- A configuration with one vacation day, used by the mask fixtures. -/
def cfgMasks : Cfg := { cfgNoAreas with vacation := [.date "2023-08-14"] }

/-- A point row on a workday outside the vacation and holiday dates. -/
def maskRow : PRow :=
  { time := 0, date := "2023-08-15", weekday := "2", daytime := "10:00",
    lat := 0, lng := 0 }

/-- The vacation mask of cfgMasks as a plain predicate. -/
def maskVac : PRow → Bool := (vacation_mask cfgMasks).getD (fun _ => false)

/-- The worktime mask of cfgMasks. -/
def maskWt : PRow → Bool := worktime_mask cfgMasks

/-- The workdays mask of cfgMasks. -/
def maskWd : PRow → Bool := workdays_mask cfgMasks

/-- A bank-holiday mask for a provider that returned one holiday. -/
def maskBh : PRow → Bool := bank_holiday_mask ["2023-10-03"]

/-- A cleaned row whose daytime is the given string (worktime boundary tests). -/
def dayRow (d : String) : PRow :=
  { time := 0, date := "2023-05-02", weekday := "2", daytime := d,
    lat := 0, lng := 0 }

/-- A raw record at 2022-12-31T23:30:00Z: its UTC year is 2022, its Europe/Berlin
year is 2023. -/
def rawNewYear : RawRow :=
  { timestampMs := "1672529400000", latitudeE7 := 525200000,
    longitudeE7 := 134000000, accuracy := 10 }

/-- The same record after filter_year has parsed its timestamp. -/
def timeNewYear : TimeRow :=
  { timestampMs := "1672529400000", latitudeE7 := 525200000,
    longitudeE7 := 134000000, accuracy := 10, time := 1672529400000 }

/-! ## Helper lemmas about haversine -/

theorem hav_self_eq (x y : ℝ) : hav x y x y = 0 := by
  simp [hav]

theorem hav_comm (a1 o1 a2 o2 : ℝ) : hav a1 o1 a2 o2 = hav a2 o2 a1 o1 := by
  unfold hav
  have h1 : Real.sin ((a1 - a2) / 2) ^ 2 = Real.sin ((a2 - a1) / 2) ^ 2 := by
    rw [show (a1 - a2) / 2 = -((a2 - a1) / 2) by ring, Real.sin_neg]; ring
  have h2 : Real.sin ((o1 - o2) / 2) ^ 2 = Real.sin ((o2 - o1) / 2) ^ 2 := by
    rw [show (o1 - o2) / 2 = -((o2 - o1) / 2) by ring, Real.sin_neg]; ring
  rw [h1, h2]; ring

theorem haversine_comm_full (lat1 lon1 lat2 lon2 : ℝ) (tr : Bool) (R : ℝ) :
    haversine lat1 lon1 lat2 lon2 tr R = haversine lat2 lon2 lat1 lon1 tr R := by
  cases tr
  · show R * 2 * Real.arcsin (Real.sqrt (hav lat1 lon1 lat2 lon2)) * 1000
      = R * 2 * Real.arcsin (Real.sqrt (hav lat2 lon2 lat1 lon1)) * 1000
    rw [hav_comm]
  · show R * 2 * Real.arcsin
        (Real.sqrt (hav (radians lat1) (radians lon1) (radians lat2) (radians lon2))) * 1000
      = R * 2 * Real.arcsin
        (Real.sqrt (hav (radians lat2) (radians lon2) (radians lat1) (radians lon1))) * 1000
    rw [hav_comm]

theorem haversine_self_full (x y : ℝ) (tr : Bool) (R : ℝ) : haversine x y x y tr R = 0 := by
  cases tr
  · show R * 2 * Real.arcsin (Real.sqrt (hav x y x y)) * 1000 = 0
    rw [hav_self_eq, Real.sqrt_zero, Real.arcsin_zero, mul_zero, zero_mul]
  · show R * 2 * Real.arcsin
        (Real.sqrt (hav (radians x) (radians y) (radians x) (radians y))) * 1000 = 0
    rw [hav_self_eq, Real.sqrt_zero, Real.arcsin_zero, mul_zero, zero_mul]

theorem haversine_nonneg_full (lat1 lon1 lat2 lon2 : ℝ) (tr : Bool) (R : ℝ)
    (hR : 0 ≤ R) : 0 ≤ haversine lat1 lon1 lat2 lon2 tr R := by
  have harc : ∀ z : ℝ, 0 ≤ Real.arcsin (Real.sqrt z) :=
    fun z => Real.arcsin_nonneg.mpr (Real.sqrt_nonneg z)
  cases tr
  · show 0 ≤ R * 2 * Real.arcsin (Real.sqrt (hav lat1 lon1 lat2 lon2)) * 1000
    exact mul_nonneg (mul_nonneg (mul_nonneg hR (by norm_num))
      (harc (hav lat1 lon1 lat2 lon2))) (by norm_num)
  · show 0 ≤ R * 2 * Real.arcsin
        (Real.sqrt (hav (radians lat1) (radians lon1) (radians lat2) (radians lon2))) * 1000
    exact mul_nonneg (mul_nonneg (mul_nonneg hR (by norm_num))
      (harc (hav (radians lat1) (radians lon1) (radians lat2) (radians lon2)))) (by norm_num)

/-! ## Claim theorems -/

/-- C9: the haversine distance (with the source defaults to_radians=True,
earth_radius=6371) is symmetric in its two coordinate pairs, zero on identical
points, and never negative. -/
theorem haversine_props (lat1 lon1 lat2 lon2 : ℝ) :
    haversine lat1 lon1 lat2 lon2 = haversine lat2 lon2 lat1 lon1 ∧
    haversine lat1 lon1 lat1 lon1 = 0 ∧
    0 ≤ haversine lat1 lon1 lat2 lon2 :=
  ⟨haversine_comm_full lat1 lon1 lat2 lon2 true 6371,
   haversine_self_full lat1 lon1 true 6371,
   haversine_nonneg_full lat1 lon1 lat2 lon2 true 6371 (by norm_num)⟩

/-- C7: with worktimes ["09:00", "18:00"] the worktime mask keeps exactly the
rows whose daytime string lies in the inclusive lexicographic interval: both
boundaries pass, one minute outside either boundary fails. -/
theorem worktime_mask_inclusive :
    worktime_mask cfgNoAreas (dayRow "09:00") = true ∧
    worktime_mask cfgNoAreas (dayRow "18:00") = true ∧
    worktime_mask cfgNoAreas (dayRow "08:59") = false ∧
    worktime_mask cfgNoAreas (dayRow "18:01") = false ∧
    (∀ p : PRow, worktime_mask cfgNoAreas p
      = (lexLe "09:00" p.daytime && lexLe p.daytime "18:00")) :=
  ⟨by decide, by decide, by decide, by decide, fun p => rfl⟩

/-- C1: contrary to the spec, the very first in-area point already receives
visitNo 2, because the always-true `df.area == df.area` conjunct makes
date_change_in_same_area fire against the leading shift-NaN together with
area_change; in the end-to-end Office scenario all four points get visitNo 2,
not 1. -/
theorem visit_no_first_point_two :
    (visit_no (AssignedDF.mk officeRows true)).map (List.map Prod.snd)
      = some [2, 2, 2, 2] := by decide

/-- C2 counterexample: a vacation entry whose `to` (2023-01-01) precedes its
`from` (2023-01-03) does not make vacation_days fail; the function returns a
result (the empty expansion). -/
theorem vacation_days_reverse_range_returns :
    vacation_days cfgReversedVacation = some [] := by decide

/-- C2 (amended): for a vacation entry {from, to} whose `to` date precedes its
`from` date, vacation_days raises no error: pd.date_range expands the entry to
the empty list of dates, so with that sole entry the result is some []. -/
theorem vacation_days_reverse_range_empty (cfg : Cfg) (f t : String)
    (hv : cfg.vacation = [VacEntry.fromTo f (some t)])
    (ya ma da yb mb db : Nat)
    (hf : parseDate f = some (ya, ma, da)) (ht : parseDate t = some (yb, mb, db))
    (hlt : daysFromCivil yb mb db < daysFromCivil ya ma da) :
    vacation_days cfg = some [] := by
  have hdf : dateToNum f = some (daysFromCivil ya ma da) := by
    simp [dateToNum, hf]
  have hdt : dateToNum t = some (daysFromCivil yb mb db) := by
    simp [dateToNum, ht]
  simp [vacation_days, hv, vacationGo, date_range, hdf, hdt, hlt]

/-- Witness for the amended C2 theorem at the concrete range 2024-05-10 down to
2024-05-01. -/
theorem vacation_days_reverse_range_empty_witness :
    vacation_days cfgReversedVacation2 = some [] :=
  vacation_days_reverse_range_empty cfgReversedVacation2 "2024-05-10" "2024-05-01"
    rfl 2024 5 10 2024 5 1 (by decide) (by decide) (by decide)

/-- C3 counterexample: with zero configured areas the pipeline does not yield an
empty visit result; visit_no fails (the area column was never created). -/
theorem pipeline_empty_areas_not_empty_result :
    visit_no (assign_areas [originRow] cfgNoAreas) 10800000 ≠ some [] := by
  intro h
  have hnone : visit_no (assign_areas [originRow] cfgNoAreas) 10800000 = none := by
    simp [visit_no, assign_areas, cfgNoAreas]
  rw [hnone] at h
  exact Option.noConfusion h

/-- C3 (amended): for every input point sequence, running assign_areas with an
empty configured-area list followed by visit_no is an error: the area column is
never created, so visit_no's df.area access raises (modelled as none) instead of
yielding an empty visit result. -/
theorem pipeline_empty_areas_none (df : List PRow) (cfg : Cfg) (timedelta : Int)
    (h : cfg.areas = []) :
    visit_no (assign_areas df cfg) timedelta = none := by
  simp [visit_no, assign_areas, h]

/-- Witness for the amended C3 theorem on a one-point sequence. -/
theorem pipeline_empty_areas_none_witness :
    visit_no (assign_areas [originRow] cfgNoAreas) 10800000 = none :=
  pipeline_empty_areas_none [originRow] cfgNoAreas 10800000 rfl

/-! ## Mask intersection lemmas -/

theorem foldl_and_eq_all (p : PRow) (b : Bool) (ms : List (PRow → Bool)) :
    ms.foldl (fun acc mk => acc && mk p) b = (b && ms.all (fun mk => mk p)) := by
  induction ms generalizing b with
  | nil => simp
  | cons m ms ih => simp [List.all_cons, ih, Bool.and_assoc]

theorem perm_all_eq (ms ms' : List (PRow → Bool)) (h : ms.Perm ms') (p : PRow) :
    ms.all (fun mk => mk p) = ms'.all (fun mk => mk p) := by
  induction h with
  | nil => rfl
  | cons x _ ih => simp [List.all_cons, ih]
  | swap x y l => simp [List.all_cons, Bool.and_left_comm]
  | trans _ _ ih1 ih2 => rw [ih1, ih2]

/-- C6: apply_masks is invariant under permuting the mask list — the reduce of
elementwise & is commutative and associative, and each row is classified
independently, so every ordering of the four masks filters the same rows. -/
theorem apply_masks_perm (df : List PRow) (ms ms' : List (PRow → Bool))
    (h : ms.Perm ms') : apply_masks df ms = apply_masks df ms' := by
  cases ms with
  | nil =>
    have h0 : ms' = [] := h.symm.eq_nil
    rw [h0]
  | cons m mst =>
    cases ms' with
    | nil => exact absurd h.eq_nil (by simp)
    | cons m2 mst2 =>
      have key : ∀ p : PRow, mst.foldl (fun acc mk => acc && mk p) (m p)
          = mst2.foldl (fun acc mk => acc && mk p) (m2 p) := by
        intro p
        rw [foldl_and_eq_all p (m p) mst, foldl_and_eq_all p (m2 p) mst2]
        have hall := perm_all_eq _ _ h p
        simpa [List.all_cons] using hall
      simp only [apply_masks]
      exact congrArg (fun f => some (List.filter f df)) (funext key)

/-- Witness for C6: the four concrete masks of the pipeline, reordered, filter
the same frame identically. -/
theorem apply_masks_perm_witness :
    apply_masks [maskRow] [maskVac, maskWt, maskBh, maskWd]
      = apply_masks [maskRow] [maskWt, maskVac, maskWd, maskBh] :=
  apply_masks_perm [maskRow] _ _
    ((List.Perm.swap maskWt maskVac [maskBh, maskWd]).trans
      (((List.Perm.swap maskWd maskBh []).cons maskVac).cons maskWt))

/-- C8: filter_year keeps only rows whose Europe/Berlin calendar year equals the
requested year, and the year test runs after the timezone conversion: the instant
2022-12-31T23:30:00Z (UTC year 2022, Berlin year 2023) is kept when filtering for
2023 and dropped when filtering for 2022. -/
theorem filter_year_local_year :
    (∀ (df : List RawRow) (year : Int) (out : List TimeRow),
        filter_year df year = some out →
        ∀ t ∈ out, (berlinYear t.time : Int) = year) ∧
    utcYear 1672529400000 = 2022 ∧
    berlinYear 1672529400000 = 2023 ∧
    filter_year [rawNewYear] 2023 = some [timeNewYear] ∧
    filter_year [rawNewYear] 2022 = some [] := by
  refine ⟨?_, by decide, by decide, by decide, by decide⟩
  intro df year out h t ht
  unfold filter_year at h
  cases hm : df.mapM (fun r =>
      (to_numeric r.timestampMs).map (fun ms =>
        (⟨r.timestampMs, r.latitudeE7, r.longitudeE7, r.accuracy, ms⟩ : TimeRow))) with
  | none => rw [hm] at h; simp at h
  | some rows =>
    rw [hm] at h
    simp only [Option.map_some'] at h
    have hout : out = rows.filter (fun t => decide ((berlinYear t.time : Int) = year)) :=
      (Option.some.injEq _ _ ▸ h).symm
    rw [hout] at ht
    exact of_decide_eq_true (List.mem_filter.mp ht).2

/-- Witness for the first clause of the C8 theorem at the New Year instant. -/
theorem filter_year_local_year_witness :
    (berlinYear timeNewYear.time : Int) = 2023 :=
  filter_year_local_year.1 [rawNewYear] 2023 [timeNewYear] (by decide)
    timeNewYear (by simp)

/-! ## Area assignment lemmas -/

theorem foldl_map_comm (areas : List Area) (rows : List ARow) :
    areas.foldl (fun rs a => rs.map (areaStep a)) rows
      = rows.map (fun r => rowAssign areas r) := by
  induction areas generalizing rows with
  | nil => simp [rowAssign]
  | cons a as ih =>
    simp only [List.foldl_cons]
    rw [ih (rows.map (areaStep a)), List.map_map]
    rfl

theorem areaStep_no_match (a : Area) (r : ARow) (hin : r.in_area = false)
    (hno : ¬ haversine r.lat r.lng a.lat a.lng < a.radius) :
    areaStep a r = { r with
      distTuple := some (haversine r.lat r.lng a.lat a.lng, none),
      dist := some (haversine r.lat r.lng a.lat a.lng),
      area := none, in_area := false } := by
  obtain ⟨t0, d0, w0, y0, la, ln, tup, ds, ar, ia⟩ := r
  simp only at hin hno
  subst hin
  simp [areaStep, hno, tupArea]

theorem areaStep_match (a : Area) (r : ARow) (hin : r.in_area = false)
    (hyes : haversine r.lat r.lng a.lat a.lng < a.radius) :
    areaStep a r = { r with
      distTuple := some (haversine r.lat r.lng a.lat a.lng, some a.tag),
      dist := some (haversine r.lat r.lng a.lat a.lng),
      area := some a.tag, in_area := true } := by
  obtain ⟨t0, d0, w0, y0, la, ln, tup, ds, ar, ia⟩ := r
  simp only at hin hyes
  subst hin
  simp [areaStep, hyes, tupArea]

theorem areaStep_assigned (a : Area) (r : ARow) (d : ℝ) (s : String)
    (htup : r.distTuple = some (d, some s)) (hd : r.dist = some d)
    (ha : r.area = some s) (hin : r.in_area = true) :
    areaStep a r = r := by
  obtain ⟨t0, d0, w0, y0, la, ln, tup, ds, ar, ia⟩ := r
  simp only at htup hd ha hin
  subst htup hd ha hin
  simp [areaStep, tupArea]

theorem rowAssign_assigned (as : List Area) (r : ARow) (d : ℝ) (s : String)
    (htup : r.distTuple = some (d, some s)) (hd : r.dist = some d)
    (ha : r.area = some s) (hin : r.in_area = true) :
    rowAssign as r = r := by
  induction as with
  | nil => rfl
  | cons a as ih =>
    show rowAssign as (areaStep a r) = r
    rw [areaStep_assigned a r d s htup hd ha hin]
    exact ih

theorem rowAssign_no_match (as : List Area) (r : ARow) (L : Area)
    (hlast : as.getLast? = some L) (hin : r.in_area = false)
    (hno : ∀ B ∈ as, ¬ haversine r.lat r.lng B.lat B.lng < B.radius) :
    rowAssign as r = { r with
      distTuple := some (haversine r.lat r.lng L.lat L.lng, none),
      dist := some (haversine r.lat r.lng L.lat L.lng),
      area := none, in_area := false } := by
  induction as generalizing r with
  | nil => simp at hlast
  | cons a as ih =>
    have h1 := areaStep_no_match a r hin (hno a (by simp))
    cases as with
    | nil =>
      have hL : a = L := by simpa using hlast
      subst hL
      show areaStep a r = _
      rw [h1]
    | cons b bs =>
      have hlast2 : (b :: bs).getLast? = some L := by
        rw [← hlast, List.getLast?_cons_cons]
      have hstep : rowAssign (a :: b :: bs) r = rowAssign (b :: bs) (areaStep a r) := rfl
      rw [hstep, h1]
      rw [ih (r := { r with
          distTuple := some (haversine r.lat r.lng a.lat a.lng, none),
          dist := some (haversine r.lat r.lng a.lat a.lng),
          area := none, in_area := false }) hlast2 rfl
        (fun B hB => hno B (by simp [hB]))]

theorem rowAssign_first_match (pre rest : List Area) (A : Area) (r : ARow)
    (hin : r.in_area = false)
    (hpre : ∀ B ∈ pre, ¬ haversine r.lat r.lng B.lat B.lng < B.radius)
    (hA : haversine r.lat r.lng A.lat A.lng < A.radius) :
    rowAssign (pre ++ A :: rest) r = { r with
      distTuple := some (haversine r.lat r.lng A.lat A.lng, some A.tag),
      dist := some (haversine r.lat r.lng A.lat A.lng),
      area := some A.tag, in_area := true } := by
  induction pre generalizing r with
  | nil =>
    have h1 := areaStep_match A r hin hA
    show rowAssign rest (areaStep A r) = _
    rw [h1]
    exact rowAssign_assigned rest _ (haversine r.lat r.lng A.lat A.lng) A.tag
      rfl rfl rfl rfl
  | cons a pre ih =>
    have h1 := areaStep_no_match a r hin (hpre a (by simp))
    have hstep : rowAssign ((a :: pre) ++ A :: rest) r
        = rowAssign (pre ++ A :: rest) (areaStep a r) := rfl
    rw [hstep, h1]
    rw [ih (r := { r with
        distTuple := some (haversine r.lat r.lng a.lat a.lng, none),
        dist := some (haversine r.lat r.lng a.lat a.lng),
        area := none, in_area := false }) rfl
      (fun B hB => hpre B (by simp [hB])) hA]

/-- C4: assign_areas uses first-match priority with a strict radius test — for a
point whose haversine distance to every area before A is not strictly below that
area's radius and whose distance to A is strictly below A's radius, the point is
assigned A's tag with that distance recorded and in_area set, whatever areas
(however close) follow A in the configuration. -/
theorem assign_areas_first_match (p : PRow) (cfg : Cfg) (pre rest : List Area)
    (A : Area) (hcfg : cfg.areas = pre ++ A :: rest)
    (hpre : ∀ B ∈ pre, ¬ haversine p.lat p.lng B.lat B.lng < B.radius)
    (hA : haversine p.lat p.lng A.lat A.lng < A.radius) :
    ∃ r : ARow, (assign_areas [p] cfg).rows = [r] ∧ r.area = some A.tag ∧
      r.in_area = true ∧ r.dist = some (haversine p.lat p.lng A.lat A.lng) := by
  refine ⟨rowAssign cfg.areas (initARow p), ?_, ?_, ?_, ?_⟩
  · show (assign_areas [p] cfg).rows = _
    simp [assign_areas, foldl_map_comm]
  · rw [hcfg, rowAssign_first_match pre rest A (initARow p) rfl hpre hA]
  · rw [hcfg, rowAssign_first_match pre rest A (initARow p) rfl hpre hA]
  · rw [hcfg, rowAssign_first_match pre rest A (initARow p) rfl hpre hA]
    rfl

/-- Witness for C4: the point (52, 13) against areas [Z, A, B] where Z matches
nothing, A (radius 500) contains the point and B (radius 1000, same center) also
contains it: the point is assigned to A. -/
theorem assign_areas_first_match_witness :
    ∃ r : ARow, (assign_areas [berlinishRow] cfgZAB).rows = [r] ∧
      r.area = some areaA.tag ∧ r.in_area = true ∧
      r.dist = some (haversine berlinishRow.lat berlinishRow.lng areaA.lat areaA.lng) := by
  refine assign_areas_first_match berlinishRow cfgZAB [areaZ] [areaB] areaA rfl ?_ ?_
  · intro B hB
    have hBZ : B = areaZ := by simpa using hB
    subst hBZ
    have h0 : (0 : ℝ) ≤ haversine berlinishRow.lat berlinishRow.lng areaZ.lat areaZ.lng :=
      haversine_nonneg_full _ _ _ _ true 6371 (by norm_num)
    simpa [areaZ] using not_lt.mpr h0
  · show haversine berlinishRow.lat berlinishRow.lng areaA.lat areaA.lng < areaA.radius
    have hself : haversine (52 : ℝ) 13 52 13 = 0 := haversine_self_full 52 13 true 6371
    simp only [berlinishRow, areaA]
    rw [hself]
    norm_num

/-- C10: with a non-empty area configuration, a point matching no area still ends
with a present dist column equal to its haversine distance to the last configured
area, area None and in_area False — every row is (re)evaluated in each pass while
unassigned, so dist is never absent after at least one pass. -/
theorem assign_areas_unmatched_dist (df1 df2 : List PRow) (p : PRow) (cfg : Cfg)
    (L : Area) (hlast : cfg.areas.getLast? = some L)
    (hno : ∀ B ∈ cfg.areas, ¬ haversine p.lat p.lng B.lat B.lng < B.radius) :
    ∃ r : ARow, ((assign_areas (df1 ++ p :: df2) cfg).rows).get? df1.length = some r ∧
      r.dist = some (haversine p.lat p.lng L.lat L.lng) ∧
      r.area = none ∧ r.in_area = false := by
  refine ⟨rowAssign cfg.areas (initARow p), ?_, ?_, ?_, ?_⟩
  · show ((assign_areas (df1 ++ p :: df2) cfg).rows).get? df1.length = _
    simp only [assign_areas, foldl_map_comm, List.map_map]
    rw [List.get?_map, List.get?_append_right (le_refl df1.length)]
    simp
  · rw [rowAssign_no_match cfg.areas (initARow p) L hlast rfl hno]
    rfl
  · rw [rowAssign_no_match cfg.areas (initARow p) L hlast rfl hno]
  · rw [rowAssign_no_match cfg.areas (initARow p) L hlast rfl hno]

/-- Witness for C10: the origin point against the two zero-radius areas; its dist
is the distance to the last area N2, with area None and in_area False. -/
theorem assign_areas_unmatched_dist_witness :
    ∃ r : ARow, ((assign_areas [originRow] cfgNoMatch).rows).get? 0 = some r ∧
      r.dist = some (haversine originRow.lat originRow.lng areaN2.lat areaN2.lng) ∧
      r.area = none ∧ r.in_area = false := by
  refine assign_areas_unmatched_dist [] [] originRow cfgNoMatch areaN2 rfl ?_
  intro B hB
  have hB2 : B = areaN1 ∨ B = areaN2 := by simpa [cfgNoMatch, cfgNoAreas] using hB
  have h0 : ∀ q : Area, (0 : ℝ) ≤ haversine originRow.lat originRow.lng q.lat q.lng :=
    fun q => haversine_nonneg_full _ _ _ _ true 6371 (by norm_num)
  rcases hB2 with hB2 | hB2 <;> subst hB2
  · simpa [areaN1] using not_lt.mpr (h0 areaN1)
  · simpa [areaN2] using not_lt.mpr (h0 areaN2)

/-! ## Visit segmentation lemmas -/

theorem visitGo_append (timedelta : Int) (l1 l2 : List ARow) (prev : Option ARow)
    (acc : Int) :
    visitGo timedelta prev acc (l1 ++ l2)
      = visitGo timedelta prev acc l1
        ++ visitGo timedelta (visitState timedelta (prev, acc) l1).1
            (visitState timedelta (prev, acc) l1).2 l2 := by
  induction l1 generalizing prev acc with
  | nil => simp [visitGo, visitState]
  | cons r rs ih =>
    show (r, acc + indicatorSum timedelta prev r)
        :: visitGo timedelta (some r) (acc + indicatorSum timedelta prev r) (rs ++ l2)
      = visitGo timedelta prev acc (r :: rs)
        ++ visitGo timedelta (visitState timedelta (prev, acc) (r :: rs)).1
            (visitState timedelta (prev, acc) (r :: rs)).2 l2
    rw [ih]
    rfl

/-- C5: for two chronologically consecutive in-area rows with the same area and
the same date (any in-area rows before and after them), the second row's visitNo
is strictly greater than the first's exactly when the elapsed time strictly
exceeds the threshold: of the three indicators only revisit_same_area can fire on
such a pair. -/
theorem visit_no_gap (timedelta : Int) (ctx rest : List ARow) (r1 r2 : ARow)
    (a : String)
    (hctx : ∀ r ∈ ctx, r.in_area = true) (hrest : ∀ r ∈ rest, r.in_area = true)
    (h1 : r1.in_area = true) (h2 : r2.in_area = true)
    (ha1 : r1.area = some a) (ha2 : r2.area = some a)
    (hdate : r1.date = r2.date) :
    ∃ pre v1 v2 post,
      (visit_no (AssignedDF.mk (ctx ++ [r1, r2] ++ rest) true) timedelta).map
          (List.map Prod.snd)
        = some (pre ++ [v1, v2] ++ post) ∧
      (v1 < v2 ↔ timedelta < r2.time - r1.time) := by
  have hfilter : (ctx ++ [r1, r2] ++ rest).filter (fun r => r.in_area)
      = ctx ++ [r1, r2] ++ rest := by
    apply List.filter_eq_self.mpr
    intro x hx
    rcases List.mem_append.mp hx with hx | hx
    · rcases List.mem_append.mp hx with hx | hx
      · exact hctx x hx
      · rcases (by simpa using hx : x = r1 ∨ x = r2) with hx | hx <;> subst hx
        · exact h1
        · exact h2
    · exact hrest x hx
  have hv : visit_no (AssignedDF.mk (ctx ++ [r1, r2] ++ rest) true) timedelta
      = some (visitGo timedelta none 0 (ctx ++ ([r1, r2] ++ rest))) := by
    rw [show visit_no (AssignedDF.mk (ctx ++ [r1, r2] ++ rest) true) timedelta
        = some (visitGo timedelta none 0
            ((ctx ++ [r1, r2] ++ rest).filter (fun r => r.in_area))) from rfl,
      hfilter, List.append_assoc]
  rw [hv, visitGo_append timedelta ctx ([r1, r2] ++ rest) none 0,
    visitGo_append timedelta [r1, r2] rest]
  have hi2 : indicatorSum timedelta (some r1) r2
      = (if timedelta < r2.time - r1.time then 1 else 0) := by
    simp [indicatorSum, area_change, revisit_same_area, date_change_in_same_area,
      prevArea, pandasEqA, ha1, ha2, hdate]
  refine ⟨(visitGo timedelta none 0 ctx).map Prod.snd,
    (visitState timedelta (none, 0) ctx).2
      + indicatorSum timedelta (visitState timedelta (none, 0) ctx).1 r1,
    (visitState timedelta (none, 0) ctx).2
      + indicatorSum timedelta (visitState timedelta (none, 0) ctx).1 r1
      + indicatorSum timedelta (some r1) r2,
    (visitGo timedelta
      (visitState timedelta (visitState timedelta (none, 0) ctx) [r1, r2]).1
      (visitState timedelta (visitState timedelta (none, 0) ctx) [r1, r2]).2
      rest).map Prod.snd, ?_, ?_⟩
  · simp [visitGo, List.map_append]
  · rw [hi2]
    split <;> omega

/-- Witness for C5 on two "Home" rows 6 hours apart (threshold 3h): the second
visitNo is strictly greater. -/
theorem visit_no_gap_witness :
    ∃ pre v1 v2 post,
      (visit_no (AssignedDF.mk ([] ++ [homeRow 0, homeRow 21600000] ++ []) true)
          10800000).map (List.map Prod.snd)
        = some (pre ++ [v1, v2] ++ post) ∧
      (v1 < v2 ↔ (10800000 : Int) < (homeRow 21600000).time - (homeRow 0).time) :=
  visit_no_gap 10800000 [] [] (homeRow 0) (homeRow 21600000) "Home"
    (by simp) (by simp) rfl rfl rfl rfl rfl

end WhereWasI
